import Mathlib

/-!
Shallow embedding of the idempotent payment-reconciliation and credit-ledger
subsystem of the agentic_code_helper backend: the Razorpay webhook route, the
client verify route, the credits service (creditCredits / debitCredits), the
upload handler debit/refund slice, the signature verifiers, and the SQL
migration layout. JavaScript truthiness and the JS strict-equality quirks the
routes rely on are modelled explicitly. Machine state (the Prisma-managed
tables) is a record of lists; a Prisma transaction is modelled as a function
that either commits a new state, raises the P2002 unique-constraint conflict
on the event-marker insert, or fails (rolling everything back).
-/

namespace AgenticBackend

/-- Error object thrown by the JS code (`new Error(msg)` with an optional
`statusCode` attached, or an internal library error). -/
structure JsError where
  message : String
  statusCode : Option Nat
deriving DecidableEq, Repr

/-- JS truthiness of a `string | null | undefined` value: only a non-empty
string is truthy. -/
def jsTruthyStr : Option String → Bool
  | none => false
  | some s => !(s == "")

/-- JS `a || b` on string-or-absent values. -/
def jsOrStr (a b : Option String) : Option String :=
  if jsTruthyStr a then a else b

/-- JS `a || null` on a string-or-absent value. -/
def jsOrNullStr (a : Option String) : Option String :=
  if jsTruthyStr a then a else none

/-- JS truthiness of a `number | null | undefined` value: zero is falsy. -/
def jsTruthyInt : Option Int → Bool
  | none => false
  | some v => !(v == 0)

/-- JS `a || b` on number-or-absent values (`0 || b` yields `b`). -/
def jsOrInt (a b : Option Int) : Option Int :=
  if jsTruthyInt a then a else b

/-- Prisma enum PaymentStatus. -/
inductive PaymentStatus
  | created | paid | failed | refunded
deriving DecidableEq, Repr

/-- Prisma enum CreditLedgerType. -/
inductive LedgerType
  | purchase | debit | refund | admin_adjustment
deriving DecidableEq, Repr

/-- Row of the User table (credit-relevant columns). -/
structure User where
  id : Nat
  credits : Int
deriving DecidableEq, Repr

/-- Row of the Payment table (the Order of the spec). -/
structure Payment where
  id : Nat
  userId : Nat
  razorpayOrderId : String
  razorpayPaymentId : Option String
  razorpaySignature : Option String
  amountPaise : Int
  creditsPurchased : Int
  status : PaymentStatus
deriving DecidableEq, Repr

/-- Row of the CreditLedger table (the LedgerEntry of the spec); `relatedId` is the
nullable idempotency key. -/
structure LedgerEntry where
  userId : Nat
  delta : Int
  type : LedgerType
  reason : String
  relatedId : Option String
deriving DecidableEq, Repr

/-- The `payload.payment.entity` object of a webhook payload. -/
structure PaymentEntity where
  id : Option String
  amount : Option Int
  order_id : Option String
  notes_website_id : Option String
deriving DecidableEq, Repr

/-- The `payload.order.entity` object of a webhook payload. -/
structure OrderEntity where
  id : Option String
  amount : Option Int
  receipt : Option String
deriving DecidableEq, Repr

/-- Parsed JSON body of a webhook delivery. -/
structure WebhookPayload where
  id : Option String
  event : String
  payment : Option PaymentEntity
  order : Option OrderEntity
deriving DecidableEq, Repr

/-- Row of the WebhookEvent table (the EventMarker of the spec); `payload := none`
models the empty `{}` stored at creation. -/
structure WebhookEventRec where
  eventId : String
  status : String
  payload : Option WebhookPayload
deriving DecidableEq, Repr

/-- The Prisma-managed database state. -/
structure DB where
  users : List User
  payments : List Payment
  creditLedger : List LedgerEntry
  webhookEvents : List WebhookEventRec
deriving DecidableEq, Repr

/-- Relevant `process.env` variables (absent = undefined). -/
structure Env where
  SITE_ID : Option String
  RAZORPAY_WEBHOOK_SECRET : Option String
  RAZORPAY_KEY_SECRET : Option String
deriving DecidableEq, Repr

/-- prisma.payment.findUnique by the unique razorpayOrderId column. -/
def findPaymentByOrderId (db : DB) (oid : String) : Option Payment :=
  db.payments.find? (fun p => p.razorpayOrderId == oid)

/-- prisma.user.findUnique by primary key. -/
def findUserById (db : DB) (uid : Nat) : Option User :=
  db.users.find? (fun u => u.id == uid)

/-- prisma.creditLedger.findFirst where relatedId equals the given key. -/
def findLedgerByRelatedId (db : DB) (rid : String) : Option LedgerEntry :=
  db.creditLedger.find? (fun e => e.relatedId == some rid)

/-- True when a WebhookEvent row with this eventId exists (so a create on the
unique eventId column would raise P2002). -/
def markerExists (db : DB) (eid : String) : Bool :=
  db.webhookEvents.any (fun w => w.eventId == eid)

/-- tx.webhookEvent.create with status processing and empty payload. -/
def insertMarker (db : DB) (eid : String) : DB :=
  { db with webhookEvents := db.webhookEvents ++ [{ eventId := eid, status := "processing", payload := none }] }

/-- tx.webhookEvent.update by eventId, setting status and payload. -/
def updateMarker (db : DB) (eid : String) (st : String) (pl : Option WebhookPayload) : DB :=
  { db with webhookEvents := db.webhookEvents.map (fun w => if w.eventId == eid then { w with status := st, payload := pl } else w) }

/-- Status of the WebhookEvent row with this eventId, if any. -/
def markerStatus (db : DB) (eid : String) : Option String :=
  (db.webhookEvents.find? (fun w => w.eventId == eid)).map (fun w => w.status)

/-- tx.payment.update by primary key. -/
def updatePaymentById (db : DB) (pid : Nat) (f : Payment → Payment) : DB :=
  { db with payments := db.payments.map (fun p => if p.id == pid then f p else p) }

/-- prisma.payment.update by the unique razorpayOrderId column. -/
def updatePaymentByOrderId (db : DB) (oid : String) (f : Payment → Payment) : DB :=
  { db with payments := db.payments.map (fun p => if p.razorpayOrderId == oid then f p else p) }

/-- tx.creditLedger.create (rows are appended in creation order). -/
def appendLedger (db : DB) (e : LedgerEntry) : DB :=
  { db with creditLedger := db.creditLedger ++ [e] }

/-- tx.user.update with credits increment/decrement by f. -/
def adjustUserCredits (db : DB) (uid : Nat) (f : Int → Int) : DB :=
  { db with users := db.users.map (fun u => if u.id == uid then { u with credits := f u.credits } else u) }

/-- Credits balance of a user as stored (0 if the row is absent). -/
def creditsOf (db : DB) (uid : Nat) : Int :=
  match findUserById db uid with
  | some u => u.credits
  | none => 0

/-- crypto.createHmac(sha256, secret).update(msg).digest(hex), with the HMAC
primitive abstracted as a function parameter; createHmac throws when the
secret is absent (process.env var undefined). -/
def hmacDigest (hmac : String → String → String) (secret : Option String) (msg : String) : Except JsError String :=
  match secret with
  | none => Except.error { message := "key must be a string", statusCode := none }
  | some s => Except.ok (hmac s msg)

/-- verifyWebhookSignature from utils/razorpay.js: the whole body is wrapped
in try/catch, so a hashing error yields false rather than a throw. -/
def verifyWebhookSignature (hmac : String → String → String) (rawBody : String) (signature : String) (secret : Option String) : Bool :=
  match hmacDigest hmac secret rawBody with
  | Except.error _ => false
  | Except.ok expected => expected == signature

/-- verifyRazorpaySignature from utils/razorpay.js: hashes the canonical
string orderId|paymentId with RAZORPAY_KEY_SECRET; there is no try/catch, so
a hashing error propagates to the caller. -/
def verifyRazorpaySignature (hmac : String → String → String) (keySecret : Option String) (orderId paymentId signature : String) : Except JsError Bool :=
  match hmacDigest hmac keySecret (orderId ++ "|" ++ paymentId) with
  | Except.error e => Except.error e
  | Except.ok expected => Except.ok (expected == signature)

/-- First component of receipt.split(given the colon separator). -/
def splitColonHead (s : String) : String :=
  (s.splitOn ":").headD ""

/-- Site id extraction of the webhook route:
notes.website_id, else the first colon-separated component of the receipt,
else null. -/
def extractSiteId (payload : WebhookPayload) : Option String :=
  let fromNotes := payload.payment.bind (fun p => p.notes_website_id)
  let receipt : String := match jsOrStr (payload.order.bind (fun o => o.receipt)) (some "") with
    | some s => s
    | none => ""
  jsOrStr fromNotes (jsOrNullStr (some (splitColonHead receipt)))

/-- JS strict equality between siteId (string or null) and process.env.SITE_ID
(string or undefined): true only when both are strings and equal, since
null strictly differs from undefined and from every string. -/
def siteMatches (siteId envSiteId : Option String) : Bool :=
  match siteId, envSiteId with
  | some a, some b => a == b
  | _, _ => false

/-- razorpayOrderId extraction: order.entity.id, else payment.entity.order_id. -/
def extractOrderId (payload : WebhookPayload) : Option String :=
  jsOrStr (payload.order.bind (fun o => o.id)) (payload.payment.bind (fun p => p.order_id))

/-- Amount extraction: payment.entity.amount, else order.entity.amount. -/
def extractAmount (payload : WebhookPayload) : Option Int :=
  jsOrInt (payload.payment.bind (fun p => p.amount)) (payload.order.bind (fun o => o.amount))

/-- razorpayPaymentId extraction: payment.entity.id, else null. -/
def extractPaymentId (payload : WebhookPayload) : Option String :=
  jsOrNullStr (payload.payment.bind (fun p => p.id))

/-- The ledger idempotency key written by the webhook route: the template
literal razorpay:(paymentId), which renders a null paymentId as "null". -/
def ledgerKey (payload : WebhookPayload) : String :=
  "razorpay:" ++ ((extractPaymentId payload).getD "null")

/-- Outcome of the prisma. transaction callback of the webhook route: a
commit of the new state, a P2002 conflict on the event-marker insert (nothing
written), or a rollback of every write after some other throw. -/
inductive TxResult
  | committed (db : DB)
  | uniqueConflict
  | txError
deriving DecidableEq, Repr

/-- Transaction body of the webhook route (payments.js webhook, the
prisma. transaction callback): marker admission, scope check, order lookup,
amount check, event-type dispatch, terminal marker update. A findUnique whose
unique argument is undefined, or an update of an absent user row, throws and
rolls the whole transaction back. -/
def webhookTx (env : Env) (signatureHeader : String) (payload : WebhookPayload) (eid : String) (db : DB) : TxResult :=
  if markerExists db eid then TxResult.uniqueConflict
  else
    let db1 := insertMarker db eid
    if !(siteMatches (extractSiteId payload) env.SITE_ID) then
      TxResult.committed (updateMarker db1 eid "ignored" (some payload))
    else
      match extractOrderId payload with
      | none => TxResult.txError
      | some oid =>
        match findPaymentByOrderId db1 oid with
        | none => TxResult.committed (updateMarker db1 eid "no_local_order" (some payload))
        | some payment =>
          let amount := extractAmount payload
          if jsTruthyInt amount && !(amount == some payment.amountPaise) then
            TxResult.committed (updateMarker db1 eid "amount_mismatch" (some payload))
          else
            if payload.event == "payment.captured" || payload.event == "payment.authorized" || payload.event == "order.paid" then
              let rpid := extractPaymentId payload
              let key := ledgerKey payload
              match findLedgerByRelatedId db1 key with
              | none =>
                let db2 := updatePaymentById db1 payment.id (fun p => { p with status := PaymentStatus.paid, razorpayPaymentId := rpid, razorpaySignature := some signatureHeader })
                let db3 := appendLedger db2 { userId := payment.userId, delta := payment.creditsPurchased, type := LedgerType.purchase, reason := "payment", relatedId := some key }
                match findUserById db3 payment.userId with
                | none => TxResult.txError
                | some _ =>
                  let db4 := adjustUserCredits db3 payment.userId (fun c => c + payment.creditsPurchased)
                  TxResult.committed (updateMarker db4 eid "processed" (some payload))
              | some _ =>
                let db2 := updatePaymentById db1 payment.id (fun p => { p with status := PaymentStatus.paid, razorpayPaymentId := rpid, razorpaySignature := some signatureHeader })
                TxResult.committed (updateMarker db2 eid "processed" (some payload))
            else if payload.event == "payment.failed" then
              let db2 := updatePaymentById db1 payment.id (fun p => { p with status := PaymentStatus.failed })
              TxResult.committed (updateMarker db2 eid "processed" (some payload))
            else
              TxResult.committed (updateMarker db1 eid "processed" (some payload))

/-- HTTP responses of the webhook route. -/
inductive HttpResp
  | ok200
  | badRequest400 (msg : String)
  | serverError500
deriving DecidableEq, Repr

/-- The webhook route handler (payments.js router.post on the webhook path):
signature gate over the raw body, JSON parse, event-id gate, then the
transaction; a P2002 conflict is answered 200, any other transaction failure
500 (the catch-block marker update finds no row after rollback and is
swallowed, so the state is unchanged). -/
def razorpayWebhook (hmac : String → String → String) (parse : String → Option WebhookPayload) (env : Env) (raw : String) (signatureHeader : Option String) (db : DB) : DB × HttpResp :=
  match signatureHeader with
  | none => (db, HttpResp.badRequest400 "invalid signature")
  | some sig =>
    if sig == "" then (db, HttpResp.badRequest400 "invalid signature")
    else if !(verifyWebhookSignature hmac raw sig env.RAZORPAY_WEBHOOK_SECRET) then
      (db, HttpResp.badRequest400 "invalid signature")
    else
      match parse raw with
      | none => (db, HttpResp.badRequest400 "bad payload")
      | some payload =>
        match jsOrNullStr payload.id with
        | none => (db, HttpResp.badRequest400 "missing event id")
        | some eid =>
          match webhookTx env sig payload eid db with
          | TxResult.committed db2 => (db2, HttpResp.ok200)
          | TxResult.uniqueConflict => (db, HttpResp.ok200)
          | TxResult.txError => (db, HttpResp.serverError500)

/-- N sequential deliveries of the same raw webhook request. -/
def deliverIter (hmac : String → String → String) (parse : String → Option WebhookPayload) (env : Env) (raw : String) (signatureHeader : Option String) : Nat → DB → DB
  | 0, db => db
  | n + 1, db => (razorpayWebhook hmac parse env raw signatureHeader (deliverIter hmac parse env raw signatureHeader n db)).1

/-- HTTP responses of the client verify route. -/
inductive VerifyResp
  | invalidSignature400
  | notFound404
  | okBalance (creditsAdded : Int) (balance : Int)
  | errorThrown500
deriving DecidableEq, Repr

/-- The client verify route handler (payments.js router.post on the verify
path), after requireAuth resolved the caller to userId and zod accepted the
three string fields. A throw from verifyRazorpaySignature, or reading
credits off a missing user row, becomes the error response. -/
def verifyEndpoint (hmac : String → String → String) (env : Env) (userId : Nat) (orderId paymentId signatureBody : String) (db : DB) : DB × VerifyResp :=
  match verifyRazorpaySignature hmac env.RAZORPAY_KEY_SECRET orderId paymentId signatureBody with
  | Except.error _ => (db, VerifyResp.errorThrown500)
  | Except.ok ok =>
    if !ok then (db, VerifyResp.invalidSignature400)
    else
      match findPaymentByOrderId db orderId with
      | none => (db, VerifyResp.notFound404)
      | some payment =>
        if !(payment.userId == userId) then (db, VerifyResp.notFound404)
        else if payment.status == PaymentStatus.paid then
          match findUserById db userId with
          | none => (db, VerifyResp.errorThrown500)
          | some u => (db, VerifyResp.okBalance 0 u.credits)
        else
          let db2 := updatePaymentByOrderId db orderId (fun p => { p with razorpayPaymentId := some paymentId, razorpaySignature := some signatureBody })
          match findUserById db2 userId with
          | none => (db2, VerifyResp.errorThrown500)
          | some u => (db2, VerifyResp.okBalance 0 u.credits)

/-- creditCredits from services/credits.js: one transaction incrementing the
balance and appending a purchase-typed ledger row; an absent user row makes
the update throw and the transaction roll back. -/
def creditCredits (userId : Nat) (amount : Int) (reason : String) (relatedId : Option String) (db : DB) : DB × Except JsError User :=
  match findUserById db userId with
  | none => (db, Except.error { message := "record to update not found", statusCode := none })
  | some u =>
    let u2 : User := { u with credits := u.credits + amount }
    let db2 := adjustUserCredits db userId (fun c => c + amount)
    let db3 := appendLedger db2 { userId := userId, delta := amount, type := LedgerType.purchase, reason := reason, relatedId := relatedId }
    (db3, Except.ok u2)

/-- debitCredits from services/credits.js: one transaction reading the
balance, throwing the 402 insufficient-credits error when the user is absent
or the balance is below the amount, else decrementing and appending a
debit-typed ledger row of delta minus the amount. -/
def debitCredits (userId : Nat) (amount : Int) (reason : String) (relatedId : Option String) (db : DB) : DB × Except JsError User :=
  match findUserById db userId with
  | none => (db, Except.error { message := "Insufficient credits", statusCode := some 402 })
  | some u =>
    if u.credits < amount then
      (db, Except.error { message := "Insufficient credits", statusCode := some 402 })
    else
      let u2 : User := { u with credits := u.credits - amount }
      let db2 := adjustUserCredits db userId (fun c => c - amount)
      let db3 := appendLedger db2 { userId := userId, delta := -amount, type := LedgerType.debit, reason := reason, relatedId := relatedId }
      (db3, Except.ok u2)

/-- MODEL_CREDIT_COST table from services/credits.js. -/
def MODEL_CREDIT_COST : List (String × Int) :=
  [("gpt-5", 10), ("gpt-5-mini", 3), ("gpt-5-nano", 1), ("gemini-2.0-flash", 1),
   ("gemini-2.5-pro", 5), ("claude-3.5-sonnet", 4), ("claude-3.5-haiku", 3)]

/-- getRequiredCredits from services/credits.js (1 when the model is unknown). -/
def getRequiredCredits (model : String) : Int :=
  match MODEL_CREDIT_COST.find? (fun p => p.1 == model) with
  | some p => p.2
  | none => 1

/-- Responses of the upload route relevant to crediting. -/
inductive UploadResp
  | ok200
  | insufficientCredits402
  | processingFailed500
deriving DecidableEq, Repr

/-- Credit-relevant slice of the upload route handler (routes/api.js): debit
before processing; on a downstream failure after a successful debit, refund
through creditCredits with reason refund:(requestId) and relatedId equal to
the requestId. The downstreamOk flag stands for the OCR/generation pipeline
succeeding. -/
def uploadHandlerCredits (userId : Nat) (model : String) (requestId : String) (downstreamOk : Bool) (db : DB) : DB × UploadResp :=
  let required := getRequiredCredits model
  match debitCredits userId required ("model:" ++ model) (some requestId) db with
  | (db1, Except.error _) => (db1, UploadResp.insufficientCredits402)
  | (db1, Except.ok _) =>
    if downstreamOk then (db1, UploadResp.ok200)
    else
      let res := creditCredits userId (getRequiredCredits model) ("refund:" ++ requestId) (some requestId) db1
      (res.1, UploadResp.processingFailed500)

/-- A unique index declared by the SQL migrations. -/
structure UniqueIndex where
  table : String
  column : String
deriving DecidableEq, Repr

/-- Every CREATE UNIQUE INDEX statement of the two migration files, in order. -/
def migrationUniqueIndexes : List UniqueIndex :=
  [{ table := "User", column := "username" },
   { table := "User", column := "email" },
   { table := "User", column := "googleId" },
   { table := "Payment", column := "razorpayOrderId" },
   { table := "WebhookEvent", column := "eventId" }]

/-- Per-key ledger invariant of the spec: at most one row per non-null
idempotency key. -/
def atMostOnePerKey (db : DB) : Prop :=
  ∀ k : String, (db.creditLedger.filter (fun e => e.relatedId == some k)).length ≤ 1

/-- Number of ledger rows carrying a given idempotency key. -/
def keyCount (db : DB) (k : String) : Nat :=
  (db.creditLedger.filter (fun e => e.relatedId == some k)).length

@[simp] lemma insertMarker_users (db : DB) (eid : String) : (insertMarker db eid).users = db.users := rfl

@[simp] lemma insertMarker_payments (db : DB) (eid : String) : (insertMarker db eid).payments = db.payments := rfl

@[simp] lemma insertMarker_creditLedger (db : DB) (eid : String) : (insertMarker db eid).creditLedger = db.creditLedger := rfl

@[simp] lemma updateMarker_users (db : DB) (eid st : String) (pl : Option WebhookPayload) : (updateMarker db eid st pl).users = db.users := rfl

@[simp] lemma updateMarker_payments (db : DB) (eid st : String) (pl : Option WebhookPayload) : (updateMarker db eid st pl).payments = db.payments := rfl

@[simp] lemma updateMarker_creditLedger (db : DB) (eid st : String) (pl : Option WebhookPayload) : (updateMarker db eid st pl).creditLedger = db.creditLedger := rfl

@[simp] lemma updatePaymentById_users (db : DB) (pid : Nat) (f : Payment → Payment) : (updatePaymentById db pid f).users = db.users := rfl

@[simp] lemma updatePaymentById_creditLedger (db : DB) (pid : Nat) (f : Payment → Payment) : (updatePaymentById db pid f).creditLedger = db.creditLedger := rfl

@[simp] lemma updatePaymentById_webhookEvents (db : DB) (pid : Nat) (f : Payment → Payment) : (updatePaymentById db pid f).webhookEvents = db.webhookEvents := rfl

@[simp] lemma updatePaymentByOrderId_users (db : DB) (oid : String) (f : Payment → Payment) : (updatePaymentByOrderId db oid f).users = db.users := rfl

@[simp] lemma updatePaymentByOrderId_creditLedger (db : DB) (oid : String) (f : Payment → Payment) : (updatePaymentByOrderId db oid f).creditLedger = db.creditLedger := rfl

@[simp] lemma appendLedger_users (db : DB) (e : LedgerEntry) : (appendLedger db e).users = db.users := rfl

@[simp] lemma appendLedger_payments (db : DB) (e : LedgerEntry) : (appendLedger db e).payments = db.payments := rfl

@[simp] lemma appendLedger_webhookEvents (db : DB) (e : LedgerEntry) : (appendLedger db e).webhookEvents = db.webhookEvents := rfl

@[simp] lemma appendLedger_creditLedger (db : DB) (e : LedgerEntry) : (appendLedger db e).creditLedger = db.creditLedger ++ [e] := rfl

@[simp] lemma adjustUserCredits_payments (db : DB) (uid : Nat) (f : Int → Int) : (adjustUserCredits db uid f).payments = db.payments := rfl

@[simp] lemma adjustUserCredits_creditLedger (db : DB) (uid : Nat) (f : Int → Int) : (adjustUserCredits db uid f).creditLedger = db.creditLedger := rfl

@[simp] lemma adjustUserCredits_webhookEvents (db : DB) (uid : Nat) (f : Int → Int) : (adjustUserCredits db uid f).webhookEvents = db.webhookEvents := rfl

@[simp] lemma findPaymentByOrderId_insertMarker (db : DB) (eid oid : String) :
    findPaymentByOrderId (insertMarker db eid) oid = findPaymentByOrderId db oid := rfl

@[simp] lemma findLedgerByRelatedId_insertMarker (db : DB) (eid k : String) :
    findLedgerByRelatedId (insertMarker db eid) k = findLedgerByRelatedId db k := rfl

@[simp] lemma findUserById_insertMarker (db : DB) (eid : String) (uid : Nat) :
    findUserById (insertMarker db eid) uid = findUserById db uid := rfl

@[simp] lemma findUserById_updatePaymentById (db : DB) (pid : Nat) (f : Payment → Payment) (uid : Nat) :
    findUserById (updatePaymentById db pid f) uid = findUserById db uid := rfl

@[simp] lemma findUserById_appendLedger (db : DB) (e : LedgerEntry) (uid : Nat) :
    findUserById (appendLedger db e) uid = findUserById db uid := rfl

@[simp] lemma findUserById_updatePaymentByOrderId (db : DB) (oid : String) (f : Payment → Payment) (uid : Nat) :
    findUserById (updatePaymentByOrderId db oid f) uid = findUserById db uid := rfl

@[simp] lemma markerExists_updatePaymentById (db : DB) (pid : Nat) (f : Payment → Payment) (eid : String) :
    markerExists (updatePaymentById db pid f) eid = markerExists db eid := rfl

@[simp] lemma markerExists_appendLedger (db : DB) (e : LedgerEntry) (eid : String) :
    markerExists (appendLedger db e) eid = markerExists db eid := rfl

@[simp] lemma markerExists_adjustUserCredits (db : DB) (uid : Nat) (f : Int → Int) (eid : String) :
    markerExists (adjustUserCredits db uid f) eid = markerExists db eid := rfl

@[simp] lemma markerStatus_updatePaymentById (db : DB) (pid : Nat) (f : Payment → Payment) (eid : String) :
    markerStatus (updatePaymentById db pid f) eid = markerStatus db eid := rfl

@[simp] lemma markerStatus_appendLedger (db : DB) (e : LedgerEntry) (eid : String) :
    markerStatus (appendLedger db e) eid = markerStatus db eid := rfl

@[simp] lemma markerStatus_adjustUserCredits (db : DB) (uid : Nat) (f : Int → Int) (eid : String) :
    markerStatus (adjustUserCredits db uid f) eid = markerStatus db eid := rfl

lemma markerExists_insertMarker_self (db : DB) (eid : String) :
    markerExists (insertMarker db eid) eid = true := by
  simp [markerExists, insertMarker, List.any_append]

lemma markerExists_updateMarker (db : DB) (e st : String) (pl : Option WebhookPayload) (eid : String) :
    markerExists (updateMarker db e st pl) eid = markerExists db eid := by
  simp only [markerExists, updateMarker]
  generalize db.webhookEvents = l
  induction l with
  | nil => rfl
  | cons w l ih =>
    simp only [List.map_cons, List.any_cons, ih]
    by_cases h : w.eventId == e <;> simp [h]

lemma updEvent_eventId (w : WebhookEventRec) (eid st : String) (pl : Option WebhookPayload) :
    ((if w.eventId == eid then { w with status := st, payload := pl } else w) : WebhookEventRec).eventId
      = w.eventId := by
  split <;> rfl

lemma find?_update_append (l : List WebhookEventRec) (eid st : String) (pl : Option WebhookPayload)
    (h : ∀ w ∈ l, (w.eventId == eid) = false) :
    ((l ++ [({ eventId := eid, status := "processing", payload := none } : WebhookEventRec)]).map
        (fun w => if w.eventId == eid then { w with status := st, payload := pl } else w)).find?
        (fun w => w.eventId == eid)
      = some { eventId := eid, status := st, payload := pl } := by
  induction l with
  | nil => simp
  | cons w l ih =>
    have hw := h w (List.mem_cons_self w l)
    have hmem : ∀ v ∈ l, (v.eventId == eid) = false := fun v hv => h v (List.mem_cons_of_mem w hv)
    simp only [List.cons_append, List.map_cons]
    rw [List.find?_cons_of_neg _ (by simp [updEvent_eventId, hw])]
    exact ih hmem

/-- Freshly inserted and then updated marker: its recorded status is the
updated one. -/
lemma markerStatus_insert_update (db : DB) (eid st : String) (pl : Option WebhookPayload)
    (h : markerExists db eid = false) :
    markerStatus (updateMarker (insertMarker db eid) eid st pl) eid = some st := by
  have h0 : db.webhookEvents.any (fun v => v.eventId == eid) = false := h
  have h' : ∀ w ∈ db.webhookEvents, (w.eventId == eid) = false := by
    intro w hw
    exact Bool.eq_false_iff.mpr (List.any_eq_false.mp h0 w hw)
  simp only [markerStatus, updateMarker, insertMarker]
  rw [find?_update_append db.webhookEvents eid st pl h']
  rfl

lemma adjUser_id (v : User) (uid : Nat) (f : Int → Int) :
    ((if v.id == uid then { v with credits := f v.credits } else v) : User).id = v.id := by
  split <;> rfl

lemma findUserById_adjustUserCredits (db : DB) (uid : Nat) (f : Int → Int) (u : User)
    (h : findUserById db uid = some u) :
    findUserById (adjustUserCredits db uid f) uid = some { u with credits := f u.credits } := by
  simp only [findUserById, adjustUserCredits] at h ⊢
  rw [List.find?_map]
  have hcomp : ((fun v : User => v.id == uid) ∘
      (fun v : User => if v.id == uid then { v with credits := f v.credits } else v))
      = fun v : User => v.id == uid := by
    funext v
    simp only [Function.comp_apply]
    rw [adjUser_id v uid f]
  rw [hcomp, h]
  have hp0 := List.find?_some h
  have hp : (u.id == uid) = true := hp0
  show some (if (u.id == uid) = true then ({ u with credits := f u.credits } : User) else u)
      = some { u with credits := f u.credits }
  rw [if_pos hp]

lemma creditsOf_adjustUserCredits (db : DB) (uid : Nat) (f : Int → Int) (u : User)
    (h : findUserById db uid = some u) :
    creditsOf (adjustUserCredits db uid f) uid = f u.credits := by
  simp [creditsOf, findUserById_adjustUserCredits db uid f u h]

lemma keyCount_of_find_none (db : DB) (k : String)
    (h : findLedgerByRelatedId db k = none) : keyCount db k = 0 := by
  simp only [keyCount, List.length_eq_zero]
  rw [List.filter_eq_nil_iff]
  intro e he
  exact List.find?_eq_none.mp h e he

lemma keyCount_appendLedger (db : DB) (e : LedgerEntry) (k : String) :
    keyCount (appendLedger db e) k
      = keyCount db k + (if e.relatedId == some k then 1 else 0) := by
  simp only [keyCount, appendLedger, List.filter_append, List.length_append]
  by_cases h : e.relatedId == some k <;> simp [h]

@[simp] lemma findUserById_updateMarker (db : DB) (eid st : String) (pl : Option WebhookPayload) (uid : Nat) :
    findUserById (updateMarker db eid st pl) uid = findUserById db uid := rfl

@[simp] lemma creditsOf_updateMarker (db : DB) (eid st : String) (pl : Option WebhookPayload) (uid : Nat) :
    creditsOf (updateMarker db eid st pl) uid = creditsOf db uid := rfl

@[simp] lemma keyCount_updateMarker (db : DB) (eid st : String) (pl : Option WebhookPayload) (k : String) :
    keyCount (updateMarker db eid st pl) k = keyCount db k := rfl

@[simp] lemma keyCount_adjustUserCredits (db : DB) (uid : Nat) (f : Int → Int) (k : String) :
    keyCount (adjustUserCredits db uid f) k = keyCount db k := rfl

@[simp] lemma keyCount_updatePaymentById (db : DB) (pid : Nat) (f : Payment → Payment) (k : String) :
    keyCount (updatePaymentById db pid f) k = keyCount db k := rfl

@[simp] lemma keyCount_insertMarker (db : DB) (eid : String) (k : String) :
    keyCount (insertMarker db eid) k = keyCount db k := rfl

/-- Final database produced by a first successful crediting delivery. -/
def creditedDB (sig : String) (payload : WebhookPayload) (eid : String) (db : DB) (pay : Payment) : DB :=
  updateMarker
    (adjustUserCredits
      (appendLedger
        (updatePaymentById (insertMarker db eid) pay.id
          (fun p => { p with status := PaymentStatus.paid,
                             razorpayPaymentId := extractPaymentId payload,
                             razorpaySignature := some sig }))
        { userId := pay.userId, delta := pay.creditsPurchased, type := LedgerType.purchase,
          reason := "payment", relatedId := some (ledgerKey payload) })
      pay.userId (fun c => c + pay.creditsPurchased))
    eid "processed" (some payload)

lemma creditedDB_creditLedger (sig : String) (payload : WebhookPayload) (eid : String) (db : DB) (pay : Payment) :
    (creditedDB sig payload eid db pay).creditLedger
      = db.creditLedger
        ++ [{ userId := pay.userId, delta := pay.creditsPurchased, type := LedgerType.purchase,
              reason := "payment", relatedId := some (ledgerKey payload) }] := rfl

lemma creditedDB_markerExists (sig : String) (payload : WebhookPayload) (eid : String) (db : DB) (pay : Payment) :
    markerExists (creditedDB sig payload eid db pay) eid = true := by
  show markerExists (updateMarker _ eid "processed" (some payload)) eid = true
  rw [markerExists_updateMarker]
  exact markerExists_insertMarker_self db eid

lemma creditedDB_creditsOf (sig : String) (payload : WebhookPayload) (eid : String) (db : DB) (pay : Payment)
    (u : User) (hu : findUserById db pay.userId = some u) :
    creditsOf (creditedDB sig payload eid db pay) pay.userId = u.credits + pay.creditsPurchased := by
  show creditsOf (adjustUserCredits _ pay.userId (fun c => c + pay.creditsPurchased)) pay.userId
      = u.credits + pay.creditsPurchased
  exact creditsOf_adjustUserCredits _ pay.userId _ u hu

lemma creditedDB_keyCount (sig : String) (payload : WebhookPayload) (eid : String) (db : DB) (pay : Payment)
    (hled : findLedgerByRelatedId db (ledgerKey payload) = none) :
    keyCount (creditedDB sig payload eid db pay) (ledgerKey payload) = 1 := by
  show keyCount (appendLedger _ _) (ledgerKey payload) = 1
  rw [keyCount_appendLedger, keyCount_updatePaymentById, keyCount_insertMarker,
    keyCount_of_find_none db (ledgerKey payload) hled]
  simp

lemma creditedDB_markerStatus (sig : String) (payload : WebhookPayload) (eid : String) (db : DB) (pay : Payment)
    (hm : markerExists db eid = false) :
    markerStatus (creditedDB sig payload eid db pay) eid = some "processed" :=
  markerStatus_insert_update db eid "processed" (some payload) hm

lemma webhookTx_conflict (env : Env) (sig : String) (payload : WebhookPayload) (eid : String) (db : DB)
    (h : markerExists db eid = true) :
    webhookTx env sig payload eid db = TxResult.uniqueConflict := by
  simp [webhookTx, h]

lemma webhookTx_ignored (env : Env) (sig : String) (payload : WebhookPayload) (eid : String) (db : DB)
    (hm : markerExists db eid = false)
    (hsite : siteMatches (extractSiteId payload) env.SITE_ID = false) :
    webhookTx env sig payload eid db
      = TxResult.committed (updateMarker (insertMarker db eid) eid "ignored" (some payload)) := by
  simp [webhookTx, hm, hsite]

lemma webhookTx_amount_mismatch (env : Env) (sig : String) (payload : WebhookPayload) (eid oid : String)
    (db : DB) (pay : Payment)
    (hm : markerExists db eid = false)
    (hsite : siteMatches (extractSiteId payload) env.SITE_ID = true)
    (hoid : extractOrderId payload = some oid)
    (hpay : findPaymentByOrderId db oid = some pay)
    (hamt : (jsTruthyInt (extractAmount payload) && !(extractAmount payload == some pay.amountPaise)) = true) :
    webhookTx env sig payload eid db
      = TxResult.committed (updateMarker (insertMarker db eid) eid "amount_mismatch" (some payload)) := by
  simp [webhookTx, hm, hsite, hoid, hpay, hamt]

lemma webhookTx_credit (env : Env) (sig : String) (payload : WebhookPayload) (eid oid : String)
    (db : DB) (pay : Payment)
    (hm : markerExists db eid = false)
    (hsite : siteMatches (extractSiteId payload) env.SITE_ID = true)
    (hoid : extractOrderId payload = some oid)
    (hpay : findPaymentByOrderId db oid = some pay)
    (hamt : (jsTruthyInt (extractAmount payload) && !(extractAmount payload == some pay.amountPaise)) = false)
    (hev : (payload.event == "payment.captured" || payload.event == "payment.authorized" || payload.event == "order.paid") = true)
    (hled : findLedgerByRelatedId db (ledgerKey payload) = none)
    (huser : findUserById db pay.userId = some u) :
    webhookTx env sig payload eid db = TxResult.committed (creditedDB sig payload eid db pay) := by
  simp [webhookTx, creditedDB, hm, hsite, hoid, hpay, hamt, hev, hled, huser]

lemma razorpayWebhook_gate (hmac : String → String → String) (parse : String → Option WebhookPayload)
    (env : Env) (raw sec sig : String) (payload : WebhookPayload) (eid : String) (db : DB)
    (hsec : env.RAZORPAY_WEBHOOK_SECRET = some sec)
    (hsig : hmac sec raw = sig) (hne : ¬ sig = "")
    (hparse : parse raw = some payload)
    (heid : jsOrNullStr payload.id = some eid) :
    razorpayWebhook hmac parse env raw (some sig) db
      = match webhookTx env sig payload eid db with
        | TxResult.committed db2 => (db2, HttpResp.ok200)
        | TxResult.uniqueConflict => (db, HttpResp.ok200)
        | TxResult.txError => (db, HttpResp.serverError500) := by
  have h1 : (sig == "") = false := by simpa using hne
  have h2 : verifyWebhookSignature hmac raw sig env.RAZORPAY_WEBHOOK_SECRET = true := by
    simp [verifyWebhookSignature, hmacDigest, hsec, hsig]
  simp [razorpayWebhook, h1, h2, hparse, heid]

/-- Every committed webhook transaction either leaves the ledger unchanged or
appends exactly one entry whose idempotency key was absent before. -/
lemma webhookTx_ledger_shape (env : Env) (sig : String) (payload : WebhookPayload) (eid : String)
    (db db2 : DB) (h : webhookTx env sig payload eid db = TxResult.committed db2) :
    db2.creditLedger = db.creditLedger
    ∨ ∃ e : LedgerEntry,
        findLedgerByRelatedId db (ledgerKey payload) = none
        ∧ e.relatedId = some (ledgerKey payload)
        ∧ db2.creditLedger = db.creditLedger ++ [e] := by
  simp only [webhookTx] at h
  split at h
  · exact absurd h (by simp)
  · split at h
    · cases h
      left
      simp
    · split at h
      · exact absurd h (by simp)
      · split at h
        · cases h
          left
          simp
        · split at h
          · cases h
            left
            simp
          · split at h
            · split at h
              · split at h
                · exact absurd h (by simp)
                · cases h
                  right
                  rename_i x2 pay heq2 h1 h0 x1 hled2 x0 uval hu2
                  exact ⟨{ userId := pay.userId, delta := pay.creditsPurchased,
                           type := LedgerType.purchase, reason := "payment",
                           relatedId := some (ledgerKey payload) }, hled2, rfl, rfl⟩
              · cases h
                left
                simp
            · split at h
              · cases h
                left
                simp
              · cases h
                left
                simp

lemma razorpayWebhook_dup (hmac : String → String → String) (parse : String → Option WebhookPayload)
    (env : Env) (raw sec sig : String) (payload : WebhookPayload) (eid : String) (db : DB)
    (hsec : env.RAZORPAY_WEBHOOK_SECRET = some sec)
    (hsig : hmac sec raw = sig) (hne : ¬ sig = "")
    (hparse : parse raw = some payload)
    (heid : jsOrNullStr payload.id = some eid)
    (hdup : markerExists db eid = true) :
    razorpayWebhook hmac parse env raw (some sig) db = (db, HttpResp.ok200) := by
  rw [razorpayWebhook_gate hmac parse env raw sec sig payload eid db hsec hsig hne hparse heid]
  rw [webhookTx_conflict env sig payload eid db hdup]

lemma atMostOnePerKey_of_shape (db db2 : DB) (k0 : String)
    (hinv : atMostOnePerKey db)
    (h : db2.creditLedger = db.creditLedger
       ∨ ∃ e : LedgerEntry, findLedgerByRelatedId db k0 = none ∧ e.relatedId = some k0
           ∧ db2.creditLedger = db.creditLedger ++ [e]) :
    atMostOnePerKey db2 := by
  intro k
  rcases h with h | ⟨e, hnone, hk, heq⟩
  · rw [h]
    exact hinv k
  · rw [heq, List.filter_append, List.length_append]
    by_cases hkk : k = k0
    · subst hkk
      have h0 : (db.creditLedger.filter (fun e => e.relatedId == some k)).length = 0 :=
        keyCount_of_find_none db k hnone
      rw [h0]
      by_cases hb : (e.relatedId == some k) = true <;> simp [hb]
    · have hb : (e.relatedId == some k) = false := by
        rw [hk]
        simp
        exact fun hc => hkk hc.symm
      simp only [List.filter_cons, hb, Bool.false_eq_true, if_false, List.filter_nil,
        List.length_nil, Nat.add_zero]
      exact hinv k

/-- Sample HMAC primitive used to instantiate the abstracted crypto call. -/
def hmacSample : String → String → String := fun s m => s ++ "#" ++ m

/-- Sample well-formed captured-payment webhook payload for this deployment. -/
def payloadSample : WebhookPayload :=
  { id := some "evt_1", event := "payment.captured",
    payment := some { id := some "pay_1", amount := some 2000, order_id := some "order_1",
                      notes_website_id := some "site_a" },
    order := some { id := some "order_1", amount := some 2000, receipt := some "site_a:u20:5" } }

/-- Sample JSON parse result for the sample raw body. -/
def parseSample : String → Option WebhookPayload := fun _ => some payloadSample

/-- Sample environment configuration. -/
def envSample : Env :=
  { SITE_ID := some "site_a", RAZORPAY_WEBHOOK_SECRET := some "whsec", RAZORPAY_KEY_SECRET := some "keysec" }

/-- Sample user row. -/
def userSample : User := { id := 20, credits := 7 }

/-- Sample order row matching payloadSample. -/
def paymentSample : Payment :=
  { id := 10, userId := 20, razorpayOrderId := "order_1", razorpayPaymentId := none,
    razorpaySignature := none, amountPaise := 2000, creditsPurchased := 4,
    status := PaymentStatus.created }

/-- Sample initial database. -/
def dbSample : DB :=
  { users := [userSample], payments := [paymentSample], creditLedger := [], webhookEvents := [] }

/-- Valid webhook signature over the sample raw body. -/
def sigSample : String := hmacSample "whsec" "rawbody"

/-- C1: delivering a webhook event with the same eventId N ≥ 1 times (valid
signature, matching scope, matching order and amount, captured type) creates
exactly one LedgerEntry carrying the idempotency key of the payment,
increases the credits of the user by creditsPurchased exactly once, and every
delivery after the first returns HTTP 200 leaving the state unchanged. -/
theorem webhook_idempotent_delivery
    (hmac : String → String → String) (parse : String → Option WebhookPayload)
    (env : Env) (raw sec sig : String) (payload : WebhookPayload) (eid oid : String)
    (db : DB) (pay : Payment) (u : User)
    (hsec : env.RAZORPAY_WEBHOOK_SECRET = some sec)
    (hsig : hmac sec raw = sig) (hne : ¬ sig = "")
    (hparse : parse raw = some payload)
    (heid : jsOrNullStr payload.id = some eid)
    (hm : markerExists db eid = false)
    (hsite : siteMatches (extractSiteId payload) env.SITE_ID = true)
    (hoid : extractOrderId payload = some oid)
    (hpay : findPaymentByOrderId db oid = some pay)
    (hamt : extractAmount payload = some pay.amountPaise)
    (hev : payload.event = "payment.captured" ∨ payload.event = "payment.authorized" ∨ payload.event = "order.paid")
    (hled : findLedgerByRelatedId db (ledgerKey payload) = none)
    (huser : findUserById db pay.userId = some u) :
    (razorpayWebhook hmac parse env raw (some sig) db).2 = HttpResp.ok200
    ∧ keyCount (razorpayWebhook hmac parse env raw (some sig) db).1 (ledgerKey payload) = 1
    ∧ creditsOf (razorpayWebhook hmac parse env raw (some sig) db).1 pay.userId
        = creditsOf db pay.userId + pay.creditsPurchased
    ∧ (∀ n : Nat, 1 ≤ n →
        deliverIter hmac parse env raw (some sig) n db
          = (razorpayWebhook hmac parse env raw (some sig) db).1
        ∧ razorpayWebhook hmac parse env raw (some sig)
            (deliverIter hmac parse env raw (some sig) n db)
          = (deliverIter hmac parse env raw (some sig) n db, HttpResp.ok200)) := by
  have hamt2 : (jsTruthyInt (extractAmount payload) && !(extractAmount payload == some pay.amountPaise)) = false := by
    rw [hamt]
    simp
  have hev2 : (payload.event == "payment.captured" || payload.event == "payment.authorized" || payload.event == "order.paid") = true := by
    rcases hev with h | h | h <;> simp [h]
  have htx := webhookTx_credit env sig payload eid oid db pay hm hsite hoid hpay hamt2 hev2 hled huser
  have hgate := razorpayWebhook_gate hmac parse env raw sec sig payload eid db hsec hsig hne hparse heid
  have hfirst : razorpayWebhook hmac parse env raw (some sig) db
      = (creditedDB sig payload eid db pay, HttpResp.ok200) := by
    rw [hgate, htx]
  have hdup : ∀ db3 : DB, markerExists db3 eid = true →
      razorpayWebhook hmac parse env raw (some sig) db3 = (db3, HttpResp.ok200) :=
    fun db3 h3 => razorpayWebhook_dup hmac parse env raw sec sig payload eid db3 hsec hsig hne hparse heid h3
  have hiter : ∀ m : Nat, deliverIter hmac parse env raw (some sig) (m + 1) db
      = creditedDB sig payload eid db pay := by
    intro m
    induction m with
    | zero => simp [deliverIter, hfirst]
    | succ m ih =>
      show (razorpayWebhook hmac parse env raw (some sig) (deliverIter hmac parse env raw (some sig) (m + 1) db)).1 = _
      rw [ih, hdup _ (creditedDB_markerExists sig payload eid db pay)]
  refine ⟨by rw [hfirst], ?_, ?_, ?_⟩
  · rw [hfirst]
    exact creditedDB_keyCount sig payload eid db pay hled
  · rw [hfirst]
    have hc := creditedDB_creditsOf sig payload eid db pay u huser
    rw [hc]
    simp [creditsOf, huser]
  · intro n hn
    obtain ⟨m, rfl⟩ : ∃ m, n = m + 1 := ⟨n - 1, by omega⟩
    constructor
    · rw [hiter m, hfirst]
    · rw [hiter m, hdup _ (creditedDB_markerExists sig payload eid db pay)]

/-- Witness for C1 at a concrete delivery: three deliveries of the sample
event credit once and converge to the state left by the first delivery. -/
theorem webhook_idempotent_delivery_witness :
    (razorpayWebhook hmacSample parseSample envSample "rawbody" (some sigSample) dbSample).2 = HttpResp.ok200
    ∧ keyCount (razorpayWebhook hmacSample parseSample envSample "rawbody" (some sigSample) dbSample).1 (ledgerKey payloadSample) = 1
    ∧ creditsOf (razorpayWebhook hmacSample parseSample envSample "rawbody" (some sigSample) dbSample).1 20
        = creditsOf dbSample 20 + 4
    ∧ deliverIter hmacSample parseSample envSample "rawbody" (some sigSample) 3 dbSample
        = (razorpayWebhook hmacSample parseSample envSample "rawbody" (some sigSample) dbSample).1 := by
  have h := webhook_idempotent_delivery hmacSample parseSample envSample "rawbody" "whsec" sigSample
    payloadSample "evt_1" "order_1" dbSample paymentSample userSample
    rfl rfl (by decide) rfl (by decide) rfl (by decide) rfl (by decide) rfl (Or.inl rfl) rfl (by decide)
  exact ⟨h.1, h.2.1, h.2.2.1, (h.2.2.2 3 (by decide)).1⟩

/-- C2 counterexample: the migrations declare no unique index on any
CreditLedger column, and two creditCredits calls with the same non-null
relatedId append two ledger rows carrying that key. -/
theorem ledger_key_unique_counterexample :
    migrationUniqueIndexes.all (fun i => !(i.table == "CreditLedger")) = true
    ∧ keyCount (creditCredits 20 5 "payment" (some "razorpay:pay_x")
        (creditCredits 20 5 "payment" (some "razorpay:pay_x") dbSample).1).1 "razorpay:pay_x" = 2 := by
  exact ⟨rfl, rfl⟩

/-- C2 (amended): the webhook route preserves the at-most-one-ledger-row-per-
key invariant through its in-transaction existence check, while the persisted
layout declares no unique index on CreditLedger (creditCredits and
debitCredits append unconditionally). -/
theorem webhook_preserves_ledger_key_uniqueness
    (hmac : String → String → String) (parse : String → Option WebhookPayload)
    (env : Env) (raw : String) (sigh : Option String) (db : DB)
    (hinv : atMostOnePerKey db) :
    atMostOnePerKey (razorpayWebhook hmac parse env raw sigh db).1
    ∧ migrationUniqueIndexes.all (fun i => !(i.table == "CreditLedger")) = true := by
  refine ⟨?_, rfl⟩
  unfold razorpayWebhook
  split
  · exact hinv
  · split
    · exact hinv
    · split
      · exact hinv
      · split
        · exact hinv
        · split
          · exact hinv
          · split
            · rename_i db2 htx
              exact atMostOnePerKey_of_shape db db2 _ hinv
                (webhookTx_ledger_shape _ _ _ _ db db2 htx)
            · exact hinv
            · exact hinv

/-- Witness for the amended C2 on the sample delivery. -/
theorem webhook_preserves_ledger_key_uniqueness_witness :
    atMostOnePerKey dbSample
    ∧ atMostOnePerKey (razorpayWebhook hmacSample parseSample envSample "rawbody" (some sigSample) dbSample).1 := by
  have h0 : atMostOnePerKey dbSample := by
    intro k
    simp [dbSample]
  exact ⟨h0, (webhook_preserves_ledger_key_uniqueness hmacSample parseSample envSample "rawbody" (some sigSample) dbSample h0).1⟩

/-- Captured-payment payload reporting amount 0 while the stored order holds
2000 paise: JS truthiness skips the amount comparison. -/
def payloadZeroAmt : WebhookPayload :=
  { id := some "evt_z", event := "payment.captured",
    payment := some { id := some "pay_z", amount := some 0, order_id := some "order_1",
                      notes_website_id := some "site_a" },
    order := some { id := some "order_1", amount := some 0, receipt := some "site_a:u20:5" } }

/-- C3 counterexample: an event reporting amount 0, different from the stored
order amount 2000, is nevertheless credited: a ledger row is created and the
marker ends processed, not amount_mismatch. -/
theorem amount_tamper_counterexample :
    extractAmount payloadZeroAmt = some 0
    ∧ ¬ (0 : Int) = paymentSample.amountPaise
    ∧ (razorpayWebhook hmacSample (fun _ => some payloadZeroAmt) envSample "raw0"
        (some (hmacSample "whsec" "raw0")) dbSample).1.creditLedger.length = 1
    ∧ markerStatus (razorpayWebhook hmacSample (fun _ => some payloadZeroAmt) envSample "raw0"
        (some (hmacSample "whsec" "raw0")) dbSample).1 "evt_z" = some "processed" := by
  exact ⟨rfl, by decide, rfl, rfl⟩

/-- C3 (amended): a webhook event whose reported amount is truthy (nonzero)
and differs from the stored amountPaise of the order is marked amount_mismatch and
stops: no ledger row is created, user credits are unchanged, and order rows
are unchanged. -/
theorem amount_mismatch_stops
    (hmac : String → String → String) (parse : String → Option WebhookPayload)
    (env : Env) (raw sec sig : String) (payload : WebhookPayload) (eid oid : String)
    (db : DB) (pay : Payment) (a : Int)
    (hsec : env.RAZORPAY_WEBHOOK_SECRET = some sec)
    (hsig : hmac sec raw = sig) (hne : ¬ sig = "")
    (hparse : parse raw = some payload)
    (heid : jsOrNullStr payload.id = some eid)
    (hm : markerExists db eid = false)
    (hsite : siteMatches (extractSiteId payload) env.SITE_ID = true)
    (hoid : extractOrderId payload = some oid)
    (hpay : findPaymentByOrderId db oid = some pay)
    (ha : extractAmount payload = some a) (ha0 : ¬ a = 0) (hane : ¬ a = pay.amountPaise) :
    razorpayWebhook hmac parse env raw (some sig) db
        = (updateMarker (insertMarker db eid) eid "amount_mismatch" (some payload), HttpResp.ok200)
    ∧ (razorpayWebhook hmac parse env raw (some sig) db).1.creditLedger = db.creditLedger
    ∧ (razorpayWebhook hmac parse env raw (some sig) db).1.users = db.users
    ∧ (razorpayWebhook hmac parse env raw (some sig) db).1.payments = db.payments
    ∧ markerStatus (razorpayWebhook hmac parse env raw (some sig) db).1 eid = some "amount_mismatch" := by
  have hguard : (jsTruthyInt (extractAmount payload) && !(extractAmount payload == some pay.amountPaise)) = true := by
    rw [ha]
    simp [jsTruthyInt, ha0, hane]
  have htx := webhookTx_amount_mismatch env sig payload eid oid db pay hm hsite hoid hpay hguard
  have hgate := razorpayWebhook_gate hmac parse env raw sec sig payload eid db hsec hsig hne hparse heid
  have hfirst : razorpayWebhook hmac parse env raw (some sig) db
      = (updateMarker (insertMarker db eid) eid "amount_mismatch" (some payload), HttpResp.ok200) := by
    rw [hgate, htx]
  refine ⟨hfirst, ?_, ?_, ?_, ?_⟩ <;> rw [hfirst]
  · rfl
  · rfl
  · rfl
  · exact markerStatus_insert_update db eid "amount_mismatch" (some payload) hm

/-- Captured-payment payload reporting 1999 paise against a 2000-paise order. -/
def payloadBadAmt : WebhookPayload :=
  { id := some "evt_b", event := "payment.captured",
    payment := some { id := some "pay_b", amount := some 1999, order_id := some "order_1",
                      notes_website_id := some "site_a" },
    order := some { id := some "order_1", amount := some 1999, receipt := some "site_a:u20:5" } }

/-- Witness for the amended C3 on a concrete 1999-vs-2000 mismatch. -/
theorem amount_mismatch_stops_witness :
    (razorpayWebhook hmacSample (fun _ => some payloadBadAmt) envSample "rawb"
        (some (hmacSample "whsec" "rawb")) dbSample).1.creditLedger = dbSample.creditLedger
    ∧ markerStatus (razorpayWebhook hmacSample (fun _ => some payloadBadAmt) envSample "rawb"
        (some (hmacSample "whsec" "rawb")) dbSample).1 "evt_b" = some "amount_mismatch" := by
  have h := amount_mismatch_stops hmacSample (fun _ => some payloadBadAmt) envSample "rawb" "whsec"
    (hmacSample "whsec" "rawb") payloadBadAmt "evt_b" "order_1" dbSample paymentSample 1999
    rfl rfl (by decide) rfl (by decide) rfl (by decide) rfl (by decide) (by decide) (by decide) (by decide)
  exact ⟨h.2.1, h.2.2.2.2⟩

/-- Captured-payment payload tagged for a different deployment. -/
def payloadOtherSite : WebhookPayload :=
  { id := some "evt_o", event := "payment.captured",
    payment := some { id := some "pay_o", amount := some 2000, order_id := some "order_1",
                      notes_website_id := some "other_site" },
    order := some { id := some "order_1", amount := some 2000, receipt := some "other_site:u9:5" } }

/-- C8: a webhook event whose extracted site tag does not strictly equal the
configured SITE_ID gets its marker set to ignored and mutates no order,
ledger, or user state. -/
theorem scope_mismatch_ignored
    (hmac : String → String → String) (parse : String → Option WebhookPayload)
    (env : Env) (raw sec sig : String) (payload : WebhookPayload) (eid : String) (db : DB)
    (hsec : env.RAZORPAY_WEBHOOK_SECRET = some sec)
    (hsig : hmac sec raw = sig) (hne : ¬ sig = "")
    (hparse : parse raw = some payload)
    (heid : jsOrNullStr payload.id = some eid)
    (hm : markerExists db eid = false)
    (hnsite : siteMatches (extractSiteId payload) env.SITE_ID = false) :
    razorpayWebhook hmac parse env raw (some sig) db
        = (updateMarker (insertMarker db eid) eid "ignored" (some payload), HttpResp.ok200)
    ∧ (razorpayWebhook hmac parse env raw (some sig) db).1.payments = db.payments
    ∧ (razorpayWebhook hmac parse env raw (some sig) db).1.creditLedger = db.creditLedger
    ∧ (razorpayWebhook hmac parse env raw (some sig) db).1.users = db.users
    ∧ markerStatus (razorpayWebhook hmac parse env raw (some sig) db).1 eid = some "ignored" := by
  have htx := webhookTx_ignored env sig payload eid db hm hnsite
  have hgate := razorpayWebhook_gate hmac parse env raw sec sig payload eid db hsec hsig hne hparse heid
  have hfirst : razorpayWebhook hmac parse env raw (some sig) db
      = (updateMarker (insertMarker db eid) eid "ignored" (some payload), HttpResp.ok200) := by
    rw [hgate, htx]
  refine ⟨hfirst, ?_, ?_, ?_, ?_⟩ <;> rw [hfirst]
  · rfl
  · rfl
  · rfl
  · exact markerStatus_insert_update db eid "ignored" (some payload) hm

/-- Witness for C8 on the concrete other-site payload. -/
theorem scope_mismatch_ignored_witness :
    (razorpayWebhook hmacSample (fun _ => some payloadOtherSite) envSample "rawo"
        (some (hmacSample "whsec" "rawo")) dbSample).1.payments = dbSample.payments
    ∧ (razorpayWebhook hmacSample (fun _ => some payloadOtherSite) envSample "rawo"
        (some (hmacSample "whsec" "rawo")) dbSample).1.creditLedger = dbSample.creditLedger
    ∧ markerStatus (razorpayWebhook hmacSample (fun _ => some payloadOtherSite) envSample "rawo"
        (some (hmacSample "whsec" "rawo")) dbSample).1 "evt_o" = some "ignored" := by
  have h := scope_mismatch_ignored hmacSample (fun _ => some payloadOtherSite) envSample "rawo" "whsec"
    (hmacSample "whsec" "rawo") payloadOtherSite "evt_o" dbSample
    rfl rfl (by decide) rfl (by decide) rfl (by decide)
  exact ⟨h.2.1, h.2.2.1, h.2.2.2.2⟩

/-- Captured-payment payload carrying no amount at all. -/
def payloadNoAmt : WebhookPayload :=
  { id := some "evt_n", event := "payment.captured",
    payment := some { id := some "pay_n", amount := none, order_id := some "order_1",
                      notes_website_id := some "site_a" },
    order := some { id := some "order_1", amount := none, receipt := some "site_a:u20:5" } }

/-- C9: when both payment.entity.amount and order.entity.amount are absent,
null, or zero, the amount-mismatch check is skipped and a matching
captured/authorized/paid event is credited in full. -/
theorem absent_amount_skips_check_and_credits
    (hmac : String → String → String) (parse : String → Option WebhookPayload)
    (env : Env) (raw sec sig : String) (payload : WebhookPayload) (eid oid : String)
    (db : DB) (pay : Payment) (u : User)
    (hsec : env.RAZORPAY_WEBHOOK_SECRET = some sec)
    (hsig : hmac sec raw = sig) (hne : ¬ sig = "")
    (hparse : parse raw = some payload)
    (heid : jsOrNullStr payload.id = some eid)
    (hm : markerExists db eid = false)
    (hsite : siteMatches (extractSiteId payload) env.SITE_ID = true)
    (hoid : extractOrderId payload = some oid)
    (hpay : findPaymentByOrderId db oid = some pay)
    (hpa : jsTruthyInt (payload.payment.bind (fun p => p.amount)) = false)
    (hoa : jsTruthyInt (payload.order.bind (fun o => o.amount)) = false)
    (hev : payload.event = "payment.captured" ∨ payload.event = "payment.authorized" ∨ payload.event = "order.paid")
    (hled : findLedgerByRelatedId db (ledgerKey payload) = none)
    (huser : findUserById db pay.userId = some u) :
    (razorpayWebhook hmac parse env raw (some sig) db).1.creditLedger
        = db.creditLedger
          ++ [{ userId := pay.userId, delta := pay.creditsPurchased, type := LedgerType.purchase,
                reason := "payment", relatedId := some (ledgerKey payload) }]
    ∧ creditsOf (razorpayWebhook hmac parse env raw (some sig) db).1 pay.userId
        = creditsOf db pay.userId + pay.creditsPurchased
    ∧ markerStatus (razorpayWebhook hmac parse env raw (some sig) db).1 eid = some "processed"
    ∧ (razorpayWebhook hmac parse env raw (some sig) db).2 = HttpResp.ok200 := by
  have hext : jsTruthyInt (extractAmount payload) = false := by
    simp only [extractAmount, jsOrInt, hpa]
    simpa using hoa
  have hamt2 : (jsTruthyInt (extractAmount payload) && !(extractAmount payload == some pay.amountPaise)) = false := by
    rw [hext]
    simp
  have hev2 : (payload.event == "payment.captured" || payload.event == "payment.authorized" || payload.event == "order.paid") = true := by
    rcases hev with h | h | h <;> simp [h]
  have htx := webhookTx_credit env sig payload eid oid db pay hm hsite hoid hpay hamt2 hev2 hled huser
  have hgate := razorpayWebhook_gate hmac parse env raw sec sig payload eid db hsec hsig hne hparse heid
  have hfirst : razorpayWebhook hmac parse env raw (some sig) db
      = (creditedDB sig payload eid db pay, HttpResp.ok200) := by
    rw [hgate, htx]
  refine ⟨?_, ?_, ?_, by rw [hfirst]⟩ <;> rw [hfirst]
  · exact creditedDB_creditLedger sig payload eid db pay
  · have hc := creditedDB_creditsOf sig payload eid db pay u huser
    rw [hc]
    simp [creditsOf, huser]
  · exact creditedDB_markerStatus sig payload eid db pay hm

/-- Witness for C9 on the concrete no-amount payload. -/
theorem absent_amount_skips_check_and_credits_witness :
    (razorpayWebhook hmacSample (fun _ => some payloadNoAmt) envSample "rawn"
        (some (hmacSample "whsec" "rawn")) dbSample).1.creditLedger
      = dbSample.creditLedger
        ++ [{ userId := 20, delta := 4, type := LedgerType.purchase,
              reason := "payment", relatedId := some "razorpay:pay_n" }]
    ∧ creditsOf (razorpayWebhook hmacSample (fun _ => some payloadNoAmt) envSample "rawn"
        (some (hmacSample "whsec" "rawn")) dbSample).1 20 = creditsOf dbSample 20 + 4 := by
  have h := absent_amount_skips_check_and_credits hmacSample (fun _ => some payloadNoAmt) envSample
    "rawn" "whsec" (hmacSample "whsec" "rawn") payloadNoAmt "evt_n" "order_1" dbSample paymentSample userSample
    rfl rfl (by decide) rfl (by decide) rfl (by decide) rfl (by decide) rfl rfl (Or.inl rfl) rfl (by decide)
  exact ⟨h.1, h.2.1⟩

/-- C4: the client verify endpoint never creates a ledger row and never
touches any user row, whatever its inputs and outcome; its only write is the
payment-metadata update. -/
theorem verify_no_ledger_no_credit_mutation
    (hmac : String → String → String) (env : Env) (userId : Nat)
    (orderId paymentId signatureBody : String) (db : DB) :
    (verifyEndpoint hmac env userId orderId paymentId signatureBody db).1.creditLedger = db.creditLedger
    ∧ (verifyEndpoint hmac env userId orderId paymentId signatureBody db).1.users = db.users := by
  simp only [verifyEndpoint]
  repeat' split
  all_goals exact ⟨rfl, rfl⟩

/-- C5: debitCredits fails with the 402 insufficient-credits error, leaving
the ledger and the balance untouched, when the balance is below the amount;
otherwise it decrements the balance and appends a debit row of delta minus
the amount in the same transaction. -/
theorem debit_insufficient_or_commits
    (uid : Nat) (amount : Int) (reason : String) (rid : Option String) (db : DB) (u : User)
    (hu : findUserById db uid = some u) :
    (u.credits < amount →
        debitCredits uid amount reason rid db
          = (db, Except.error { message := "Insufficient credits", statusCode := some 402 }))
    ∧ (¬ u.credits < amount →
        (debitCredits uid amount reason rid db).1.creditLedger
            = db.creditLedger
              ++ [{ userId := uid, delta := -amount, type := LedgerType.debit,
                    reason := reason, relatedId := rid }]
        ∧ creditsOf (debitCredits uid amount reason rid db).1 uid = u.credits - amount
        ∧ (debitCredits uid amount reason rid db).2
            = Except.ok { u with credits := u.credits - amount }) := by
  constructor
  · intro hlt
    simp [debitCredits, hu, hlt]
  · intro hge
    have heq : debitCredits uid amount reason rid db
        = (appendLedger (adjustUserCredits db uid (fun c => c - amount))
             { userId := uid, delta := -amount, type := LedgerType.debit,
               reason := reason, relatedId := rid },
           Except.ok { u with credits := u.credits - amount }) := by
      simp [debitCredits, hu, hge]
    refine ⟨by rw [heq]; try rfl, ?_, by rw [heq]; try rfl⟩
    rw [heq]
    exact creditsOf_adjustUserCredits db uid (fun c => c - amount) u hu

/-- Witness for C5: a balance of 7 rejects a 10-credit debit unchanged and
accepts a 3-credit debit with the matching ledger row. -/
theorem debit_insufficient_or_commits_witness :
    debitCredits 20 10 "model:gpt-5" (some "req9") dbSample
        = (dbSample, Except.error { message := "Insufficient credits", statusCode := some 402 })
    ∧ (debitCredits 20 3 "model:gpt-5-mini" (some "req8") dbSample).1.creditLedger
        = dbSample.creditLedger
          ++ [{ userId := 20, delta := -3, type := LedgerType.debit,
                reason := "model:gpt-5-mini", relatedId := some "req8" }] := by
  have h1 := debit_insufficient_or_commits 20 10 "model:gpt-5" (some "req9") dbSample userSample (by decide)
  have h2 := debit_insufficient_or_commits 20 3 "model:gpt-5-mini" (some "req8") dbSample userSample (by decide)
  exact ⟨h1.1 (by decide), (h2.2 (by decide)).1⟩

/-- C6 counterexample: after a downstream failure, the relatedId of the refund
row equals the relatedId of the debit row (both are the request id), not a distinct
fresh key. -/
theorem refund_key_counterexample :
    ((uploadHandlerCredits 20 "gpt-5-mini" "req1" false dbSample).1.creditLedger.map (fun e => e.relatedId))
        = [some "req1", some "req1"]
    ∧ (uploadHandlerCredits 20 "gpt-5-mini" "req1" false dbSample).2 = UploadResp.processingFailed500 := by
  exact ⟨rfl, rfl⟩

/-- C6 (amended): a downstream failure after a successful debit is
compensated by a credit-ledger refund row with reason refund:(requestId)
whose relatedId is the original request id — the same key the debit used —
restoring the net balance. -/
theorem upload_refund_compensates
    (uid : Nat) (model requestId : String) (db : DB) (u : User)
    (hu : findUserById db uid = some u)
    (hcred : ¬ u.credits < getRequiredCredits model) :
    (uploadHandlerCredits uid model requestId false db).1.creditLedger
        = db.creditLedger
          ++ [{ userId := uid, delta := -(getRequiredCredits model), type := LedgerType.debit,
                reason := "model:" ++ model, relatedId := some requestId },
              { userId := uid, delta := getRequiredCredits model, type := LedgerType.purchase,
                reason := "refund:" ++ requestId, relatedId := some requestId }]
    ∧ creditsOf (uploadHandlerCredits uid model requestId false db).1 uid = u.credits
    ∧ (uploadHandlerCredits uid model requestId false db).2 = UploadResp.processingFailed500 := by
  have heqd : debitCredits uid (getRequiredCredits model) ("model:" ++ model) (some requestId) db
      = (appendLedger (adjustUserCredits db uid (fun c => c - getRequiredCredits model))
           { userId := uid, delta := -(getRequiredCredits model), type := LedgerType.debit,
             reason := "model:" ++ model, relatedId := some requestId },
         Except.ok { u with credits := u.credits - getRequiredCredits model }) := by
    simp [debitCredits, hu, hcred]
  have hu1 : findUserById
      (appendLedger (adjustUserCredits db uid (fun c => c - getRequiredCredits model))
        { userId := uid, delta := -(getRequiredCredits model), type := LedgerType.debit,
          reason := "model:" ++ model, relatedId := some requestId }) uid
      = some { u with credits := u.credits - getRequiredCredits model } := by
    rw [findUserById_appendLedger]
    exact findUserById_adjustUserCredits db uid (fun c => c - getRequiredCredits model) u hu
  have heq : uploadHandlerCredits uid model requestId false db
      = (appendLedger
          (adjustUserCredits
            (appendLedger (adjustUserCredits db uid (fun c => c - getRequiredCredits model))
              { userId := uid, delta := -(getRequiredCredits model), type := LedgerType.debit,
                reason := "model:" ++ model, relatedId := some requestId })
            uid (fun c => c + getRequiredCredits model))
          { userId := uid, delta := getRequiredCredits model, type := LedgerType.purchase,
            reason := "refund:" ++ requestId, relatedId := some requestId },
         UploadResp.processingFailed500) := by
    simp [uploadHandlerCredits, heqd, creditCredits, hu1]
  refine ⟨?_, ?_, by rw [heq]⟩ <;> rw [heq]
  · simp
  · have hc := creditsOf_adjustUserCredits
      (appendLedger (adjustUserCredits db uid (fun c => c - getRequiredCredits model))
        { userId := uid, delta := -(getRequiredCredits model), type := LedgerType.debit,
          reason := "model:" ++ model, relatedId := some requestId })
      uid (fun c => c + getRequiredCredits model)
      { u with credits := u.credits - getRequiredCredits model } hu1
    show creditsOf (adjustUserCredits _ uid (fun c => c + getRequiredCredits model)) uid = u.credits
    rw [hc]
    show u.credits - getRequiredCredits model + getRequiredCredits model = u.credits
    omega

/-- Witness for the amended C6 on the sample user and a failing pipeline. -/
theorem upload_refund_compensates_witness :
    (uploadHandlerCredits 20 "gpt-5-mini" "req1" false dbSample).1.creditLedger
        = dbSample.creditLedger
          ++ [{ userId := 20, delta := -3, type := LedgerType.debit,
                reason := "model:gpt-5-mini", relatedId := some "req1" },
              { userId := 20, delta := 3, type := LedgerType.purchase,
                reason := "refund:req1", relatedId := some "req1" }]
    ∧ creditsOf (uploadHandlerCredits 20 "gpt-5-mini" "req1" false dbSample).1 20 = 7 := by
  have h := upload_refund_compensates 20 "gpt-5-mini" "req1" dbSample userSample (by decide) (by decide)
  exact ⟨h.1, h.2.1⟩

/-- C7 counterexample: with the key secret absent, the client-confirmation
verifier propagates the hashing error instead of returning false, while the
webhook verifier returns false on the same condition. -/
theorem verifier_throw_counterexample :
    verifyRazorpaySignature hmacSample none "order_1" "pay_1" "sig"
        = Except.error { message := "key must be a string", statusCode := none }
    ∧ verifyWebhookSignature hmacSample "raw" "sig" none = false := by
  exact ⟨rfl, rfl⟩

/-- C7 (amended): the raw-body webhook verifier returns false on any mismatch
or on a hashing error from an absent secret and never throws; the
client-confirmation verifier returns false on mismatch when the secret is
present, but propagates the hashing error when the secret is absent. -/
theorem verifiers_failure_modes
    (hmac : String → String → String) (raw sig o p s : String) :
    verifyWebhookSignature hmac raw sig none = false
    ∧ (∀ sec : String, ¬ hmac sec raw = sig → verifyWebhookSignature hmac raw sig (some sec) = false)
    ∧ (∀ sec : String, ¬ hmac sec (o ++ "|" ++ p) = s →
        verifyRazorpaySignature hmac (some sec) o p s = Except.ok false)
    ∧ (∃ e : JsError, verifyRazorpaySignature hmac none o p s = Except.error e) := by
  refine ⟨rfl, ?_, ?_, ⟨_, rfl⟩⟩
  · intro sec hne
    simp [verifyWebhookSignature, hmacDigest]
    exact hne
  · intro sec hne
    simp [verifyRazorpaySignature, hmacDigest]
    exact hne

/-- Witness for the amended C7 on concrete mismatching inputs. -/
theorem verifiers_failure_modes_witness :
    verifyWebhookSignature hmacSample "raw" "bad" none = false
    ∧ verifyWebhookSignature hmacSample "raw" "bad" (some "sec") = false
    ∧ verifyRazorpaySignature hmacSample (some "sec") "o" "p" "bad" = Except.ok false
    ∧ (∃ e : JsError, verifyRazorpaySignature hmacSample none "o" "p" "bad" = Except.error e) := by
  have h := verifiers_failure_modes hmacSample "raw" "bad" "o" "p" "bad"
  exact ⟨h.1, h.2.1 "sec" (by decide), h.2.2.1 "sec" (by decide), h.2.2.2⟩

/-- C10: a signed verify call referencing an existing order owned by a
different user responds 404 not-found and performs no write, exactly as when
the order is absent. -/
theorem verify_foreign_order_not_found
    (hmac : String → String → String) (env : Env) (userId : Nat)
    (orderId paymentId : String) (sec : String) (db : DB) (pay : Payment)
    (hsec : env.RAZORPAY_KEY_SECRET = some sec)
    (hpay : findPaymentByOrderId db orderId = some pay)
    (hneq : ¬ pay.userId = userId) :
    verifyEndpoint hmac env userId orderId paymentId (hmac sec (orderId ++ "|" ++ paymentId)) db
      = (db, VerifyResp.notFound404) := by
  simp [verifyEndpoint, verifyRazorpaySignature, hmacDigest, hsec, hpay, hneq]

/-- Witness for C10: caller 99 probing the order of user 20 gets 404 with the
database unchanged. -/
theorem verify_foreign_order_not_found_witness :
    verifyEndpoint hmacSample envSample 99 "order_1" "pay_1"
        (hmacSample "keysec" ("order_1" ++ "|" ++ "pay_1")) dbSample
      = (dbSample, VerifyResp.notFound404) := by
  exact verify_foreign_order_not_found hmacSample envSample 99 "order_1" "pay_1" "keysec"
    dbSample paymentSample rfl (by decide) (by decide)

end AgenticBackend
